import Mathlib

-- Verification development for the Motia VS Code extension's server
-- lifecycle coordinator (src/utilities/serverManager.ts) and project
-- detector (src/utilities/projectDetector.ts).  The TypeScript code is
-- shallowly embedded: the static class fields become a state record, the
-- asynchronous operations become explicit functions over that state, and
-- the network is an oracle mapping (time, port) to a probe outcome.

namespace Motia

/-- Outcome of one HTTP GET probe issued by checkIfServerRunning
(serverManager.ts lines 192-221): the request either receives a response
with some status code, fails with a connection error, or hits the request
timeout. -/
inductive HttpOutcome where
  | response (statusCode : Nat)
  | connError
  | timeout
deriving Repr, DecidableEq

/-- Embeds ServerManager.checkIfServerRunning (serverManager.ts lines
192-221) as the settlement of the promise it returns: the response handler
resolves true exactly for status code 200, the error handler resolves
false, the timeout handler destroys the request and resolves false.  The
promise executor never calls reject, which is visible here as the error
constructor being unused. -/
def checkIfServerRunning : HttpOutcome → Except String Bool
  | .response statusCode => .ok (statusCode == 200)
  | .connError => .ok false
  | .timeout => .ok false

/-- Outcome of one TCP connect attempt in the net.Socket revision of the
probe (the older ServerManager revision, unnamed part_002 lines 205-223). -/
inductive SocketOutcome where
  | connected
  | socketError
  | timeout
deriving Repr, DecidableEq

/-- Embeds the net.Socket revision of checkIfServerRunning (unnamed
part_002 lines 205-223): a successful connect resolves true, the error and
timeout handlers destroy the socket and resolve false; reject is never
called. -/
def checkIfServerRunningNet : SocketOutcome → Except String Bool
  | .connected => .ok true
  | .socketError => .ok false
  | .timeout => .ok false

/-- The boolean a caller awaits from checkIfServerRunning.  Well-defined
because the probe promise always resolves, so the error arm is
unreachable. -/
def checkBool (o : HttpOutcome) : Bool :=
  match checkIfServerRunning o with
  | .ok b => b
  | .error _ => false

/-- The motia settings read at the top of startServer (serverManager.ts
lines 43-46): motia.serverPort (default 3000) and motia.nodejsPath
(default empty string). -/
structure Settings where
  serverPort : Nat
  nodejsPath : String
deriving Repr, DecidableEq

/-- External facts the coordinator consults: the verdict of
validateNodejsPath for the configured custom path, which of npx / pnpm /
yarn the commandExists check finds, and the process.platform variant. -/
structure Env where
  nodejsPathValid : Bool
  npxExists : Bool
  pnpmExists : Bool
  yarnExists : Bool
  isWindows : Bool
deriving Repr, DecidableEq

/-- The static fields of class ServerManager (serverManager.ts lines
13-17): _terminal (modelled as the numeric id of the owned terminal, if
any), _isRunning, _serverPort and _serverStartTime. -/
structure MgrState where
  terminal : Option Nat
  isRunning : Bool
  serverPort : Nat
  serverStartTime : Nat
deriving Repr, DecidableEq

/-- The manager state together with the host-level bookkeeping needed to
observe resource usage: how many terminals vscode.window.createTerminal
has produced (terminal ids are allocated in order), which ids have been
disposed, and every command line sent to a terminal. -/
structure World where
  mgr : MgrState
  createdTerminals : Nat
  disposedTerminals : List Nat
  sentCommands : List String
deriving Repr, DecidableEq

/-- _maxStartupTime = 30000 ms (serverManager.ts line 17). -/
def maxStartupTime : Nat := 30000

/-- checkInterval = 500 ms inside _pollServerStatus (line 118). -/
def checkInterval : Nat := 500

/-- timeout: 1000 ms in the http request options of checkIfServerRunning
(line 199); an upper bound on how long one probe attempt can take. -/
def probeTimeout : Nat := 1000

/-- Initial values of the static fields (lines 13-16). -/
def initialState : MgrState :=
  { terminal := none, isRunning := false, serverPort := 3000, serverStartTime := 0 }

/-- A fresh host: initial manager state, no terminals created, nothing
disposed, nothing sent. -/
def initialWorld : World :=
  { mgr := initialState, createdTerminals := 0, disposedTerminals := [], sentCommands := [] }

/-- path.join as used for the custom npx path (line 82). -/
def pathJoin (a b : String) : String := a ++ "/" ++ b

/-- The base command string built at line 79:
motia dev --verbose --port followed by the port. -/
def baseCommand (port : Nat) : String :=
  "motia dev --verbose --port " ++ toString port

/-- The launcher resolution chain of startServer (lines 79-94): a custom
nodejsPath always yields a command built from its npx; otherwise npx,
pnpm, yarn are tried in order via commandExists; none available means the
no-launcher error path. -/
def resolveCommand (settings : Settings) (env : Env) (port : Nat) : Option String :=
  if settings.nodejsPath ≠ "" then
    some ((if env.isWindows then "& " else "")
      ++ "\"" ++ pathJoin settings.nodejsPath (if env.isWindows then "npx.cmd" else "npx") ++ "\" "
      ++ baseCommand port)
  else if env.npxExists then some ("npx " ++ baseCommand port)
  else if env.pnpmExists then some ("pnpm " ++ baseCommand port)
  else if env.yarnExists then some ("yarn " ++ baseCommand port)
  else none

/-- How the launch phase of a startServer call settles, before any
polling: reject with the invalid-path error (line 52), resolve because the
port is already reachable (lines 58-73), reject with the no-launcher error
(lines 89-94), or send a command to a fresh terminal and begin polling
(lines 96-103). -/
inductive StartPhase1 where
  | rejectedInvalidPath
  | resolvedAlreadyRunning
  | rejectedNoLauncher
  | launched (command : String)
deriving Repr, DecidableEq

/-- Embeds the body of startServer up to the point where _pollServerStatus
is scheduled (serverManager.ts lines 40-104), with the sequential field
writes of each control path folded into that path's final state:
_serverPort is always set from settings first (line 44); an invalid custom
nodejsPath rejects (lines 49-55); a reachable port sets _isRunning and
resolves without creating anything (lines 57-73); otherwise a terminal is
created (line 76) BEFORE launcher resolution, so the no-launcher reject
path (lines 89-94) still retains the fresh terminal; on a resolved
command it is sent to the terminal and _serverStartTime is recorded
(lines 96-100).  The reachability probe runs at call time `now` against
the freshly cached port. -/
def startServerLaunch (settings : Settings) (env : Env)
    (netw : Nat → Nat → HttpOutcome) (now : Nat) (w : World) : World × StartPhase1 :=
  if settings.nodejsPath ≠ "" ∧ env.nodejsPathValid = false then
    ({ w with mgr := { w.mgr with serverPort := settings.serverPort } },
     .rejectedInvalidPath)
  else if checkBool (netw now settings.serverPort) then
    ({ w with mgr := { w.mgr with serverPort := settings.serverPort, isRunning := true } },
     .resolvedAlreadyRunning)
  else
    match resolveCommand settings env settings.serverPort with
    | none =>
        ({ w with
            mgr := { w.mgr with serverPort := settings.serverPort,
                                terminal := some w.createdTerminals },
            createdTerminals := w.createdTerminals + 1 },
         .rejectedNoLauncher)
    | some cmd =>
        ({ w with
            mgr := { w.mgr with serverPort := settings.serverPort,
                                terminal := some w.createdTerminals,
                                serverStartTime := now },
            createdTerminals := w.createdTerminals + 1,
            sentCommands := w.sentCommands ++ [cmd] },
         .launched cmd)

/-- How the poll loop of _pollServerStatus settles the startServer
promise: resolve(true) on a successful probe, or reject with the startup
timeout error; each carries the time at which the settling probe
completed. -/
inductive PollResult where
  | resolvedRunning (time : Nat)
  | rejectedTimeout (time : Nat)
deriving Repr, DecidableEq

/-- Embeds one checkServer firing and its recursive rescheduling
(_pollServerStatus, serverManager.ts lines 113-158).  The callback fires
at time t, awaits a probe of the currently cached port that takes dur t
milliseconds; on success it sets _isRunning and resolves (lines 123-137);
otherwise, if the elapsed time since _serverStartTime now exceeds
_maxStartupTime it clears _isRunning and rejects (lines 141-146); else it
reschedules itself checkInterval later (line 149).  Total because the
deadline check bounds how often the loop can reschedule. -/
def checkServer (netw : Nat → Nat → HttpOutcome) (dur : Nat → Nat)
    (w : World) (t : Nat) : World × PollResult :=
  if checkBool (netw t w.mgr.serverPort) then
    ({ w with mgr := { w.mgr with isRunning := true } }, .resolvedRunning (t + dur t))
  else if _h : maxStartupTime < t + dur t - w.mgr.serverStartTime then
    ({ w with mgr := { w.mgr with isRunning := false } }, .rejectedTimeout (t + dur t))
  else
    checkServer netw dur w (t + dur t + checkInterval)
termination_by w.mgr.serverStartTime + maxStartupTime + checkInterval + 1 - t
decreasing_by
  simp only [maxStartupTime, checkInterval] at *
  omega

/-- How a full uninterfered startServer call settles. -/
inductive StartResult where
  | rejectedInvalidPath
  | resolvedAlreadyRunning
  | rejectedNoLauncher
  | resolvedStarted (time : Nat)
  | rejectedTimeout (time : Nat)
deriving Repr, DecidableEq

/-- A complete startServer call that runs to settlement without
interference: the launch phase (lines 40-104) followed, on the launched
path, by the poll loop started at now + checkInterval (line 157 schedules
the first checkServer one interval after launch). -/
def startServer (settings : Settings) (env : Env)
    (netw : Nat → Nat → HttpOutcome) (dur : Nat → Nat)
    (now : Nat) (w : World) : World × StartResult :=
  match startServerLaunch settings env netw now w with
  | (w1, .rejectedInvalidPath) => (w1, .rejectedInvalidPath)
  | (w1, .resolvedAlreadyRunning) => (w1, .resolvedAlreadyRunning)
  | (w1, .rejectedNoLauncher) => (w1, .rejectedNoLauncher)
  | (w1, .launched _) =>
      match checkServer netw dur w1 (now + checkInterval) with
      | (w2, .resolvedRunning tr) => (w2, .resolvedStarted tr)
      | (w2, .rejectedTimeout tr) => (w2, .rejectedTimeout tr)

/-- Embeds ServerManager.isServerRunning (serverManager.ts lines 227-229):
it delegates to checkIfServerRunning at the cached _serverPort. -/
def isServerRunning (netw : Nat → Nat → HttpOutcome) (now : Nat)
    (w : World) : Except String Bool :=
  checkIfServerRunning (netw now w.mgr.serverPort)

/-- Embeds ServerManager.getServerStatus (serverManager.ts lines 235-237):
the cached _isRunning flag, no probe. -/
def getServerStatus (w : World) : Bool := w.mgr.isRunning

/-- What a completed stopServer call reports: whether a terminal was owned
(information message server stopped versus no server running), whether the
post-dispose probe still found the port reachable (the advisory warning of
lines 177-181), and which port that probe targeted. -/
structure StopOutcome where
  hadTerminal : Bool
  warnedStillRunning : Bool
  probedPort : Nat
deriving Repr, DecidableEq

/-- The tail of stopServer after the terminal branch: await one probe of
the cached port (line 176); were that await to reject the rejection would
propagate, which the error arm records; on resolution the promise resolves
with the advisory outcome. -/
def stopFinish (netw : Nat → Nat → HttpOutcome) (now : Nat)
    (w1 : World) (had : Bool) : Except String (World × StopOutcome) :=
  match checkIfServerRunning (netw now w1.mgr.serverPort) with
  | .error e => .error e
  | .ok still =>
      .ok (w1, { hadTerminal := had, warnedStillRunning := still,
                 probedPort := w1.mgr.serverPort })

/-- Embeds ServerManager.stopServer (serverManager.ts lines 164-185): if a
terminal is owned it is disposed, _terminal cleared and _isRunning set to
false (lines 166-170); otherwise nothing is touched and the no-server
message is shown (line 172).  Note the else branch leaves _isRunning as it
was.  Either way one advisory probe of the cached port follows. -/
def stopServer (netw : Nat → Nat → HttpOutcome) (now : Nat)
    (w : World) : Except String (World × StopOutcome) :=
  match w.mgr.terminal with
  | some tid =>
      stopFinish netw now
        { w with mgr := { w.mgr with terminal := none, isRunning := false },
                 disposedTerminals := w.disposedTerminals ++ [tid] } true
  | none => stopFinish netw now w false

/-- The terminal ids that have been created and not disposed: the live
handles the host is carrying. -/
def liveTerminals (w : World) : List Nat :=
  (List.range w.createdTerminals).filter (fun tid => !w.disposedTerminals.contains tid)

-- ### Helper lemmas

/-- The tail of stopServer always resolves, with the advisory flag equal
to the probe's boolean. -/
lemma stopFinish_ok (netw : Nat → Nat → HttpOutcome) (now : Nat)
    (w1 : World) (had : Bool) :
    stopFinish netw now w1 had
      = .ok (w1, { hadTerminal := had,
                   warnedStillRunning := checkBool (netw now w1.mgr.serverPort),
                   probedPort := w1.mgr.serverPort }) := by
  unfold stopFinish
  cases hc : netw now w1.mgr.serverPort <;>
    simp [checkIfServerRunning, checkBool, hc]

/-- stopServer on a state with no owned terminal: resolves, leaves the
state untouched, reports nothing-to-stop. -/
lemma stopServer_eq_none (netw : Nat → Nat → HttpOutcome) (now : Nat)
    (w : World) (h : w.mgr.terminal = none) :
    stopServer netw now w
      = .ok (w, { hadTerminal := false,
                  warnedStillRunning := checkBool (netw now w.mgr.serverPort),
                  probedPort := w.mgr.serverPort }) := by
  unfold stopServer
  rw [h]
  exact stopFinish_ok netw now w false

/-- stopServer on a state owning terminal tid: disposes it, clears
_terminal and _isRunning, then resolves with the advisory outcome. -/
lemma stopServer_eq_some (netw : Nat → Nat → HttpOutcome) (now : Nat)
    (w : World) (tid : Nat) (h : w.mgr.terminal = some tid) :
    stopServer netw now w
      = .ok ({ w with mgr := { w.mgr with terminal := none, isRunning := false },
                      disposedTerminals := w.disposedTerminals ++ [tid] },
             { hadTerminal := true,
               warnedStillRunning := checkBool (netw now w.mgr.serverPort),
               probedPort := w.mgr.serverPort }) := by
  unfold stopServer
  rw [h]
  exact stopFinish_ok netw now _ true

/-- If every probe fails, the poll loop settles by rejecting with the
startup timeout: auxiliary form with an explicit bound on the number of
remaining reschedules. -/
lemma checkServer_all_fail_aux (netw : Nat → Nat → HttpOutcome) (dur : Nat → Nat)
    (w : World)
    (hfail : ∀ s p, checkBool (netw s p) = false)
    (hdur : ∀ s, dur s ≤ probeTimeout) :
    ∀ k t, w.mgr.serverStartTime + maxStartupTime + checkInterval + 1 - t ≤ k →
      t ≤ w.mgr.serverStartTime + maxStartupTime + checkInterval →
      ∃ tr, checkServer netw dur w t
          = ({ w with mgr := { w.mgr with isRunning := false } },
             PollResult.rejectedTimeout tr)
        ∧ tr ≤ w.mgr.serverStartTime + maxStartupTime + checkInterval + probeTimeout := by
  intro k
  induction k with
  | zero =>
      intro t hk hub
      exfalso
      simp only [maxStartupTime, checkInterval] at hk hub
      omega
  | succ k ih =>
      intro t hk hub
      rw [checkServer.eq_def]
      rw [hfail t w.mgr.serverPort, if_neg (by decide)]
      split
      case isTrue h =>
        refine ⟨t + dur t, rfl, ?_⟩
        have hd := hdur t
        simp only [maxStartupTime, checkInterval, probeTimeout] at *
        omega
      case isFalse h =>
        have hd := hdur t
        refine ih (t + dur t + checkInterval) ?_ ?_ <;>
          (simp only [maxStartupTime, checkInterval, probeTimeout] at *; omega)

/-- If every probe fails, the poll loop started at any admissible time
rejects with the startup timeout, clears _isRunning, touches nothing else,
and settles no later than maxStartupTime + checkInterval + probeTimeout
past _serverStartTime. -/
lemma checkServer_all_fail (netw : Nat → Nat → HttpOutcome) (dur : Nat → Nat)
    (w : World) (t : Nat)
    (hfail : ∀ s p, checkBool (netw s p) = false)
    (hdur : ∀ s, dur s ≤ probeTimeout)
    (hub : t ≤ w.mgr.serverStartTime + maxStartupTime + checkInterval) :
    ∃ tr, checkServer netw dur w t
        = ({ w with mgr := { w.mgr with isRunning := false } },
           PollResult.rejectedTimeout tr)
      ∧ tr ≤ w.mgr.serverStartTime + maxStartupTime + checkInterval + probeTimeout :=
  checkServer_all_fail_aux netw dur w hfail hdur
    (w.mgr.serverStartTime + maxStartupTime + checkInterval + 1) t (by omega) hub

/-- Whatever the probes do, the poll loop only ever rewrites the
_isRunning flag: port, terminal, creation and disposal records, and sent
commands are preserved (auxiliary form with an explicit reschedule
bound). -/
lemma checkServer_shape_aux (netw : Nat → Nat → HttpOutcome) (dur : Nat → Nat)
    (w : World) :
    ∀ k t, w.mgr.serverStartTime + maxStartupTime + checkInterval + 1 - t ≤ k →
      ∃ b, (checkServer netw dur w t).1
          = { w with mgr := { w.mgr with isRunning := b } } := by
  intro k
  induction k with
  | zero =>
      intro t hk
      rw [checkServer.eq_def]
      split
      case isTrue h => exact ⟨true, rfl⟩
      case isFalse h =>
        split
        case isTrue h2 => exact ⟨false, rfl⟩
        case isFalse h2 =>
          exfalso
          simp only [maxStartupTime, checkInterval] at hk h2
          omega
  | succ k ih =>
      intro t hk
      rw [checkServer.eq_def]
      split
      case isTrue h => exact ⟨true, rfl⟩
      case isFalse h =>
        split
        case isTrue h2 => exact ⟨false, rfl⟩
        case isFalse h2 =>
          refine ih (t + dur t + checkInterval) ?_
          simp only [maxStartupTime, checkInterval] at *
          omega

/-- Whatever the probes do, the poll loop only ever rewrites the
_isRunning flag. -/
lemma checkServer_shape (netw : Nat → Nat → HttpOutcome) (dur : Nat → Nat)
    (w : World) (t : Nat) :
    ∃ b, (checkServer netw dur w t).1
        = { w with mgr := { w.mgr with isRunning := b } } :=
  checkServer_shape_aux netw dur w
    (w.mgr.serverStartTime + maxStartupTime + checkInterval + 1) t (by omega)

/-- Every control path of the launch phase caches the settings port in
_serverPort. -/
lemma startServerLaunch_port (settings : Settings) (env : Env)
    (netw : Nat → Nat → HttpOutcome) (now : Nat) (w : World) :
    ((startServerLaunch settings env netw now w).1).mgr.serverPort
      = settings.serverPort := by
  unfold startServerLaunch
  split
  · rfl
  · split
    · rfl
    · split <;> rfl

/-- Inversion for the launched path: the launch phase created one fresh
terminal, owns it, disposed nothing, and stamped _serverStartTime with the
call time. -/
lemma startServerLaunch_launched (settings : Settings) (env : Env)
    (netw : Nat → Nat → HttpOutcome) (now : Nat) (w w1 : World) (c : String)
    (h : startServerLaunch settings env netw now w = (w1, .launched c)) :
    w1.createdTerminals = w.createdTerminals + 1
    ∧ w1.disposedTerminals = w.disposedTerminals
    ∧ w1.mgr.terminal = some w.createdTerminals
    ∧ w1.mgr.serverStartTime = now := by
  unfold startServerLaunch at h
  split at h
  · simp at h
  · split at h
    · simp at h
    · split at h
      · simp at h
      · rw [Prod.mk.injEq] at h
        obtain ⟨hw, -⟩ := h
        subst hw
        exact ⟨rfl, rfl, rfl, rfl⟩

/-- If the initial probe of a start call succeeds (and the custom path, if
set, validates), the launch phase adopts the running server: it records
_isRunning, caches the port, creates no terminal and sends nothing. -/
lemma startServerLaunch_already (settings : Settings) (env : Env)
    (netw : Nat → Nat → HttpOutcome) (now : Nat) (w : World)
    (hpath : settings.nodejsPath = "" ∨ env.nodejsPathValid = true)
    (hreach : checkBool (netw now settings.serverPort) = true) :
    startServerLaunch settings env netw now w
      = ({ w with mgr := { w.mgr with serverPort := settings.serverPort,
                                      isRunning := true } },
         .resolvedAlreadyRunning) := by
  unfold startServerLaunch
  rw [if_neg (by rcases hpath with h | h <;> simp [h]), if_pos hreach]

-- ### Concrete fixtures used by counterexamples and witnesses

/-- A host where npx exists, no custom path is set to be validated, not
Windows. -/
def env0 : Env :=
  { nodejsPathValid := true, npxExists := true, pnpmExists := false,
    yarnExists := false, isWindows := false }

/-- A host with no package manager at all. -/
def envNone : Env :=
  { nodejsPathValid := true, npxExists := false, pnpmExists := false,
    yarnExists := false, isWindows := false }

/-- A host whose configured custom Node.js path fails validation. -/
def envBadPath : Env :=
  { nodejsPathValid := false, npxExists := true, pnpmExists := false,
    yarnExists := false, isWindows := false }

/-- A network where no probe ever succeeds. -/
def unreachNetw : Nat → Nat → HttpOutcome := fun _ _ => .connError

/-- A network where every probe answers 200 OK. -/
def reachNetw : Nat → Nat → HttpOutcome := fun _ _ => .response 200

/-- The command the launch phase sends on the npx path for port 3000. -/
def npxCmd3000 : String := "npx motia dev --verbose --port 3000"

/-- The world after one launch on port 3000 from a fresh host: terminal 0
created and owned, command sent, polling under way. -/
def wLaunch0 : World :=
  { mgr := { terminal := some 0, isRunning := false, serverPort := 3000,
             serverStartTime := 0 },
    createdTerminals := 1, disposedTerminals := [], sentCommands := [npxCmd3000] }

-- ### Claim theorems

/-- C7: stop() is an idempotent no-op when no handle is owned: for every
state with no owned terminal, stopServer resolves successfully (the
promise never rejects; reporting nothing-to-stop is not an error), leaves
the state unchanged, and a second consecutive stop behaves identically. -/
theorem c7_idempotent_stop (netw : Nat → Nat → HttpOutcome) (now now2 : Nat)
    (w : World) (h : w.mgr.terminal = none) :
    stopServer netw now w
      = .ok (w, { hadTerminal := false,
                  warnedStillRunning := checkBool (netw now w.mgr.serverPort),
                  probedPort := w.mgr.serverPort })
    ∧ stopServer netw now2 w
      = .ok (w, { hadTerminal := false,
                  warnedStillRunning := checkBool (netw now2 w.mgr.serverPort),
                  probedPort := w.mgr.serverPort }) :=
  ⟨stopServer_eq_none netw now w h, stopServer_eq_none netw now2 w h⟩

/-- Witness for C7: two consecutive stops on a fresh host (no terminal,
port unreachable) both resolve, report nothing-to-stop, and leave the
state as it was. -/
theorem c7_idempotent_stop_witness :
    stopServer unreachNetw 0 initialWorld
      = .ok (initialWorld, { hadTerminal := false, warnedStillRunning := false,
                             probedPort := 3000 })
    ∧ stopServer unreachNetw 5 initialWorld
      = .ok (initialWorld, { hadTerminal := false, warnedStillRunning := false,
                             probedPort := 3000 }) :=
  c7_idempotent_stop unreachNetw 0 5 initialWorld rfl

/-- C8: the reachability probe is total and non-throwing: every HTTP probe
outcome settles the promise with a boolean (never a rejection); connection
errors and probe timeouts yield false, as does any non-200 status; the
net.Socket revision behaves the same; and isServerRunning, which delegates
to the probe, always settles with a boolean as well. -/
theorem c8_probe_total :
    (∀ o, ∃ b, checkIfServerRunning o = .ok b)
    ∧ checkIfServerRunning .connError = .ok false
    ∧ checkIfServerRunning .timeout = .ok false
    ∧ (∀ c, checkIfServerRunning (.response c) = .ok (c == 200))
    ∧ (∀ o, ∃ b, checkIfServerRunningNet o = .ok b)
    ∧ checkIfServerRunningNet .socketError = .ok false
    ∧ checkIfServerRunningNet .timeout = .ok false
    ∧ (∀ netw now w, ∃ b, isServerRunning netw now w = .ok b) := by
  refine ⟨fun o => ?_, rfl, rfl, fun c => rfl, fun o => ?_, rfl, rfl,
    fun netw now w => ?_⟩
  · cases o <;> exact ⟨_, rfl⟩
  · cases o <;> exact ⟨_, rfl⟩
  · unfold isServerRunning
    cases netw now w.mgr.serverPort <;> exact ⟨_, rfl⟩

/-- C9: isServerRunning and stopServer probe the statically cached port:
it starts at 3000, every startServer call overwrites it with the settings
value read at that call, isServerRunning probes exactly the cached value
(so after a start it probes that start's port no matter what the settings
say later), and the advisory probe of stopServer targets the cached port
too. -/
theorem c9_cached_port :
    initialWorld.mgr.serverPort = 3000
    ∧ (∀ settings env netw dur now w,
        ((startServer settings env netw dur now w).1).mgr.serverPort
          = settings.serverPort)
    ∧ (∀ netw now w,
        isServerRunning netw now w
          = checkIfServerRunning (netw now w.mgr.serverPort))
    ∧ (∀ settings env netw dur now w netw2 now2,
        isServerRunning netw2 now2 (startServer settings env netw dur now w).1
          = checkIfServerRunning (netw2 now2 settings.serverPort))
    ∧ (∀ netw now w,
        (stopServer netw now w).map (fun p => p.2.probedPort)
          = .ok w.mgr.serverPort) := by
  have hport : ∀ settings env netw dur now w,
      ((startServer settings env netw dur now w).1).mgr.serverPort
        = settings.serverPort := by
    intro settings env netw dur now w
    have hp := startServerLaunch_port settings env netw now w
    unfold startServer
    rcases hl : startServerLaunch settings env netw now w with ⟨w1, r⟩
    rw [hl] at hp
    cases r with
    | launched c =>
        obtain ⟨b, hb⟩ := checkServer_shape netw dur w1 (now + checkInterval)
        rcases hcs : checkServer netw dur w1 (now + checkInterval) with ⟨w2, pr⟩
        rw [hcs] at hb
        cases pr <;> simp_all
    | rejectedInvalidPath => simpa using hp
    | resolvedAlreadyRunning => simpa using hp
    | rejectedNoLauncher => simpa using hp
  refine ⟨rfl, hport, fun netw now w => rfl,
    fun settings env netw dur now w netw2 now2 => ?_, fun netw now w => ?_⟩
  · unfold isServerRunning
    rw [hport settings env netw dur now w]
  · cases h : w.mgr.terminal with
    | none => rw [stopServer_eq_none netw now w h]; rfl
    | some tid => rw [stopServer_eq_some netw now w tid h]; rfl

-- ### Project detector (projectDetector.ts, unnamed part_002 lines 9-49)

/-- What isMotiaProject can observe about one workspace folder: whether a
steps directory exists (existsSync and statSync.isDirectory, line 20),
whether package.json exists (line 26), and the result of parsing it —
none models a JSON.parse throw (caught at lines 42-44), some carries the
dependency and devDependency key lists. -/
structure FolderFS where
  hasStepsDir : Bool
  packageJsonExists : Bool
  parsedPackageJson : Option (List String × List String)
deriving Repr, DecidableEq

/-- The motia dependency scope tested at line 36. -/
def motiaScope : String := "@motiadev/"

/-- The bare motia dependency name tested at line 36. -/
def motiaName : String := "motia"

/-- The dependency test of lines 35-37: some key of the merged
dependencies object starts with the motia scope or equals motia. -/
def hasMotiaDependency (depNames : List String) : Bool :=
  depNames.any (fun dep => dep.startsWith motiaScope || dep == motiaName)

/-- The folder loop of isMotiaProject (lines 17-46): a steps directory
makes the folder match immediately; otherwise an existing package.json is
parsed — a successful parse with a motia dependency among the merged
dependency and devDependency keys matches, a parse failure is caught and
the loop simply continues with the next folder, as does any non-match. -/
def scanFolders : List FolderFS → Bool
  | [] => false
  | folder :: rest =>
      if folder.hasStepsDir then true
      else if folder.packageJsonExists then
        match folder.parsedPackageJson with
        | some (deps, devDeps) =>
            if hasMotiaDependency (deps ++ devDeps) then true
            else scanFolders rest
        | none => scanFolders rest
      else scanFolders rest

/-- Embeds isMotiaProject (lines 9-49): undefined or empty
workspaceFolders yield false (lines 11-14); otherwise the folder loop
runs, and falling off its end yields false (line 48). -/
def isMotiaProject : Option (List FolderFS) → Bool
  | none => false
  | some folders => if folders.length == 0 then false else scanFolders folders

/-- C10: isMotiaProject is total at its public interface: it returns false
(rather than throwing) when there are no workspace folders — undefined or
empty — and a package.json that fails to parse is caught and treated as
non-matching: a folder with a malformed manifest and no steps directory is
simply skipped, so it never aborts detection or prevents a later folder
from matching. -/
theorem c10_project_detector :
    isMotiaProject none = false
    ∧ isMotiaProject (some []) = false
    ∧ (∀ f rest, f.hasStepsDir = false → f.parsedPackageJson = none →
        scanFolders (f :: rest) = scanFolders rest)
    ∧ (∀ f g rest, f.hasStepsDir = false → f.parsedPackageJson = none →
        g.hasStepsDir = true →
        isMotiaProject (some (f :: g :: rest)) = true) := by
  have hskip : ∀ (f : FolderFS) rest, f.hasStepsDir = false →
      f.parsedPackageJson = none → scanFolders (f :: rest) = scanFolders rest := by
    intro f rest hs hp
    simp [scanFolders, hs, hp]
  refine ⟨rfl, rfl, hskip, fun f g rest hs hp hg => ?_⟩
  have h2 : scanFolders (g :: rest) = true := by simp [scanFolders, hg]
  simp [isMotiaProject, hskip f (g :: rest) hs hp, h2]

/-- Witness for C10: a first folder whose package.json is malformed does
not stop the second, steps-bearing folder from being detected. -/
theorem c10_project_detector_witness :
    isMotiaProject
      (some [{ hasStepsDir := false, packageJsonExists := true,
               parsedPackageJson := none },
             { hasStepsDir := true, packageJsonExists := false,
               parsedPackageJson := none }]) = true :=
  c10_project_detector.2.2.2
    { hasStepsDir := false, packageJsonExists := true, parsedPackageJson := none }
    { hasStepsDir := true, packageJsonExists := false, parsedPackageJson := none }
    [] rfl rfl rfl

/-- C4: a start whose reachability probe never succeeds after launch does
not poll forever: with a launcher available (no custom path, npx found)
and every probe failing within its own bounded timeout, startServer
rejects with the startup timeout no later than maxStartupTime plus one
checkInterval plus one probeTimeout after the launch request time, the
cached _isRunning flag ends false, the launched terminal is still owned,
and nothing was disposed (the external process is not killed). -/
theorem c4_timeout_bound (settings : Settings) (env : Env)
    (netw : Nat → Nat → HttpOutcome) (dur : Nat → Nat) (now : Nat) (w : World)
    (hpath : settings.nodejsPath = "")
    (hnpx : env.npxExists = true)
    (hfail : ∀ s p, checkBool (netw s p) = false)
    (hdur : ∀ s, dur s ≤ probeTimeout) :
    ∃ tr wf, startServer settings env netw dur now w
        = (wf, StartResult.rejectedTimeout tr)
      ∧ tr ≤ now + maxStartupTime + checkInterval + probeTimeout
      ∧ wf.mgr.isRunning = false
      ∧ wf.mgr.terminal = some w.createdTerminals
      ∧ wf.disposedTerminals = w.disposedTerminals
      ∧ wf.mgr.serverStartTime = now := by
  have hcmd : resolveCommand settings env settings.serverPort
      = some ("npx " ++ baseCommand settings.serverPort) := by
    unfold resolveCommand
    rw [if_neg (by simp [hpath]), if_pos hnpx]
  have hl : startServerLaunch settings env netw now w
      = ({ w with
            mgr := { w.mgr with serverPort := settings.serverPort,
                                terminal := some w.createdTerminals,
                                serverStartTime := now },
            createdTerminals := w.createdTerminals + 1,
            sentCommands := w.sentCommands
              ++ ["npx " ++ baseCommand settings.serverPort] },
         .launched ("npx " ++ baseCommand settings.serverPort)) := by
    unfold startServerLaunch
    rw [if_neg (by simp [hpath]), hfail now settings.serverPort,
      if_neg (by decide), hcmd]
  obtain ⟨tr, heq, hb⟩ :=
    checkServer_all_fail netw dur
      { w with
          mgr := { w.mgr with serverPort := settings.serverPort,
                              terminal := some w.createdTerminals,
                              serverStartTime := now },
          createdTerminals := w.createdTerminals + 1,
          sentCommands := w.sentCommands
            ++ ["npx " ++ baseCommand settings.serverPort] }
      (now + checkInterval) hfail hdur (by simp [maxStartupTime, checkInterval])
  refine ⟨tr,
    { w with
        mgr := { w.mgr with serverPort := settings.serverPort,
                            terminal := some w.createdTerminals,
                            serverStartTime := now, isRunning := false },
        createdTerminals := w.createdTerminals + 1,
        sentCommands := w.sentCommands
          ++ ["npx " ++ baseCommand settings.serverPort] },
    ?_, ?_, rfl, rfl, rfl, rfl⟩
  · unfold startServer
    rw [hl]
    dsimp only
    rw [heq]
  · simpa using hb

/-- Witness for C4: from a fresh host on port 3000 with npx available and
a never-reachable port, startServer times out within the stated bound with
the terminal still owned and undisposed. -/
theorem c4_timeout_bound_witness :
    ∃ tr wf, startServer { serverPort := 3000, nodejsPath := "" } env0
        unreachNetw (fun _ => 0) 0 initialWorld
        = (wf, StartResult.rejectedTimeout tr)
      ∧ tr ≤ 0 + maxStartupTime + checkInterval + probeTimeout
      ∧ wf.mgr.isRunning = false
      ∧ wf.mgr.terminal = some 0
      ∧ wf.disposedTerminals = []
      ∧ wf.mgr.serverStartTime = 0 :=
  c4_timeout_bound { serverPort := 3000, nodejsPath := "" } env0 unreachNetw
    (fun _ => 0) 0 initialWorld rfl rfl (fun _ _ => rfl)
    (fun _ => Nat.zero_le _)

/-- C5 counterexample: the claim quantifies over every start call made
while the port is reachable, but validateNodejsPath runs before the
reachability check (lines 49-55 precede lines 57-73), so with a custom
nodejsPath that fails validation and a port answering 200, startServer
rejects with the invalid-path error and never records the running state —
refuting that every such call resolves successfully. -/
theorem c5_counterexample :
    startServer { serverPort := 3000, nodejsPath := "/bad/node" } envBadPath
        reachNetw (fun _ => 0) 0 initialWorld
      = ({ initialWorld with
            mgr := { initialWorld.mgr with serverPort := 3000 } },
         StartResult.rejectedInvalidPath)
    ∧ checkBool (reachNetw 0 3000) = true
    ∧ getServerStatus (startServer { serverPort := 3000, nodejsPath := "/bad/node" }
        envBadPath reachNetw (fun _ => 0) 0 initialWorld).1 = false := by
  exact ⟨rfl, rfl, rfl⟩

/-- C5 (amended): for every start call made while the configured port is
already reachable, provided the custom runtime path is unset or validates,
startServer resolves successfully without invoking the process launcher —
no terminal is created, no command is sent — and the cached state records
running (the externally-owned listener is adopted). -/
theorem c5_amended (settings : Settings) (env : Env)
    (netw : Nat → Nat → HttpOutcome) (dur : Nat → Nat) (now : Nat) (w : World)
    (hpath : settings.nodejsPath = "" ∨ env.nodejsPathValid = true)
    (hreach : checkBool (netw now settings.serverPort) = true) :
    startServer settings env netw dur now w
      = ({ w with mgr := { w.mgr with serverPort := settings.serverPort,
                                      isRunning := true } },
         StartResult.resolvedAlreadyRunning) := by
  unfold startServer
  rw [startServerLaunch_already settings env netw now w hpath hreach]

/-- Witness for C5 (amended): a fresh host, no custom path, port 3000
already answering 200: startServer adopts the server, creating no
terminal and sending nothing. -/
theorem c5_amended_witness :
    startServer { serverPort := 3000, nodejsPath := "" } env0 reachNetw
        (fun _ => 0) 7 initialWorld
      = ({ initialWorld with
            mgr := { initialWorld.mgr with serverPort := 3000,
                                           isRunning := true } },
         StartResult.resolvedAlreadyRunning) :=
  c5_amended { serverPort := 3000, nodejsPath := "" } env0 reachNetw
    (fun _ => 0) 7 initialWorld (Or.inl rfl) rfl

/-- C3 counterexample: with no custom path, no package manager and an
unreachable port, startServer does reject with the no-launcher error, but
line 76 has already created a terminal and stored it in _terminal before
the launcher chain runs, so the failed call creates and retains a handle —
refuting that no process handle is created or retained. -/
theorem c3_counterexample :
    startServer { serverPort := 3000, nodejsPath := "" } envNone unreachNetw
        (fun _ => 0) 0 initialWorld
      = ({ initialWorld with
            mgr := { initialWorld.mgr with terminal := some 0 },
            createdTerminals := 1 },
         StartResult.rejectedNoLauncher)
    ∧ ((startServer { serverPort := 3000, nodejsPath := "" } envNone unreachNetw
        (fun _ => 0) 0 initialWorld).1).mgr.terminal = some 0
    ∧ liveTerminals (startServer { serverPort := 3000, nodejsPath := "" } envNone
        unreachNetw (fun _ => 0) 0 initialWorld).1 = [0] := by
  refine ⟨?_, rfl, ?_⟩ <;> decide

/-- C3 (amended): when no custom runtime path is set and none of npx,
pnpm, yarn exists, startServer fails with the no-launcher error without
entering the polling phase, sends no command, and leaves the cached
running flag unchanged — but it first creates a fresh terminal and
retains it in _terminal across the failure. -/
theorem c3_amended (settings : Settings) (env : Env)
    (netw : Nat → Nat → HttpOutcome) (dur : Nat → Nat) (now : Nat) (w : World)
    (hpath : settings.nodejsPath = "")
    (hnpx : env.npxExists = false) (hpnpm : env.pnpmExists = false)
    (hyarn : env.yarnExists = false)
    (hfail : checkBool (netw now settings.serverPort) = false) :
    startServer settings env netw dur now w
      = ({ w with
            mgr := { w.mgr with serverPort := settings.serverPort,
                                terminal := some w.createdTerminals },
            createdTerminals := w.createdTerminals + 1 },
         StartResult.rejectedNoLauncher)
    ∧ ((startServer settings env netw dur now w).1).mgr.isRunning
        = w.mgr.isRunning
    ∧ ((startServer settings env netw dur now w).1).sentCommands
        = w.sentCommands := by
  have hcmd : resolveCommand settings env settings.serverPort = none := by
    unfold resolveCommand
    rw [if_neg (by simp [hpath]), if_neg (by simp [hnpx]),
      if_neg (by simp [hpnpm]), if_neg (by simp [hyarn])]
  have h : startServer settings env netw dur now w
      = ({ w with
            mgr := { w.mgr with serverPort := settings.serverPort,
                                terminal := some w.createdTerminals },
            createdTerminals := w.createdTerminals + 1 },
         StartResult.rejectedNoLauncher) := by
    unfold startServer startServerLaunch
    rw [if_neg (by simp [hpath]), hfail, if_neg (by decide), hcmd]
  exact ⟨h, by rw [h], by rw [h]⟩

/-- Witness for C3 (amended): fresh host, no launchers, unreachable port:
the call fails with no-launcher yet terminal 0 is created and retained. -/
theorem c3_amended_witness :
    startServer { serverPort := 3000, nodejsPath := "" } envNone unreachNetw
        (fun _ => 0) 0 initialWorld
      = ({ initialWorld with
            mgr := { initialWorld.mgr with serverPort := 3000,
                                           terminal := some 0 },
            createdTerminals := 1 },
         StartResult.rejectedNoLauncher)
    ∧ ((startServer { serverPort := 3000, nodejsPath := "" } envNone unreachNetw
        (fun _ => 0) 0 initialWorld).1).mgr.isRunning = false
    ∧ ((startServer { serverPort := 3000, nodejsPath := "" } envNone unreachNetw
        (fun _ => 0) 0 initialWorld).1).sentCommands = [] :=
  c3_amended { serverPort := 3000, nodejsPath := "" } envNone unreachNetw
    (fun _ => 0) 0 initialWorld rfl rfl rfl rfl rfl

/-- The state reached by adopting an externally running server: the cached
running flag is set but no terminal is owned (reached below by a
startServer call whose initial probe succeeds). -/
def adoptedWorld : World :=
  { mgr := { terminal := none, isRunning := true, serverPort := 3000,
             serverStartTime := 0 },
    createdTerminals := 0, disposedTerminals := [], sentCommands := [] }

/-- C6 counterexample: adopt an externally running server (start with the
port already reachable), then stop.  The no-terminal branch of stopServer
(line 172) never clears _isRunning, so after the stop completes
getServerStatus still reports running — refuting that after stop() the
cached state is Idle for every state including the adopted one. -/
theorem c6_counterexample :
    startServer { serverPort := 3000, nodejsPath := "" } env0 reachNetw
        (fun _ => 0) 0 initialWorld
      = (adoptedWorld, StartResult.resolvedAlreadyRunning)
    ∧ stopServer unreachNetw 10 adoptedWorld
      = .ok (adoptedWorld, { hadTerminal := false, warnedStillRunning := false,
                             probedPort := 3000 })
    ∧ getServerStatus adoptedWorld = true := by
  exact ⟨rfl, rfl, rfl⟩

/-- C6 (amended): after stopServer completes no handle is owned; if a
handle WAS owned the cached state is Idle (getServerStatus reports
not-running); but if no handle was owned — including the adopted-external
state, where the cached running flag is set — stopServer leaves the state
entirely unchanged, so the cached flag can remain true after the stop. -/
theorem c6_amended :
    (∀ netw now (w : World) tid, w.mgr.terminal = some tid →
      ∃ w2 out, stopServer netw now w = .ok (w2, out)
        ∧ w2.mgr.terminal = none
        ∧ w2.mgr.isRunning = false
        ∧ getServerStatus w2 = false)
    ∧ (∀ netw now (w : World), w.mgr.terminal = none →
      ∃ out, stopServer netw now w = .ok (w, out)) := by
  constructor
  · intro netw now w tid h
    exact ⟨_, _, stopServer_eq_some netw now w tid h, rfl, rfl, rfl⟩
  · intro netw now w h
    exact ⟨_, stopServer_eq_none netw now w h⟩

/-- Witness for C6 (amended): stopping the world that owns terminal 0
yields an Idle state: no terminal, cached flag cleared. -/
theorem c6_amended_witness :
    ∃ w2 out, stopServer unreachNetw 3 wLaunch0 = .ok (w2, out)
      ∧ w2.mgr.terminal = none
      ∧ w2.mgr.isRunning = false
      ∧ getServerStatus w2 = false :=
  c6_amended.1 unreachNetw 3 wLaunch0 0 rfl

/-- The world after a second launch phase runs at time 10 while wLaunch0
still owns terminal 0: terminal 1 is created and takes over _terminal,
terminal 0 is never disposed. -/
def c2w2 : World :=
  { mgr := { terminal := some 1, isRunning := false, serverPort := 3000,
             serverStartTime := 10 },
    createdTerminals := 2, disposedTerminals := [], sentCommands := [npxCmd3000, npxCmd3000] }

/-- C2 counterexample: two start calls interleave so that each runs its
launch phase while the port is still unreachable (the first is mid-poll
when the second begins).  Line 76 overwrites _terminal without disposing
the old terminal, so after the second launch two terminals are live at
once — refuting that at most one live terminal handle ever exists. -/
theorem c2_counterexample :
    startServerLaunch { serverPort := 3000, nodejsPath := "" } env0 unreachNetw 0
        initialWorld = (wLaunch0, .launched npxCmd3000)
    ∧ startServerLaunch { serverPort := 3000, nodejsPath := "" } env0 unreachNetw 10
        wLaunch0 = (c2w2, .launched npxCmd3000)
    ∧ liveTerminals wLaunch0 = [0]
    ∧ liveTerminals c2w2 = [0, 1]
    ∧ c2w2.mgr.terminal = some 1 := by
  refine ⟨?_, ?_, ?_, ?_, rfl⟩ <;> decide

/-- C2 (amended): a start that finds the server already running and
reachable returns success without creating a second handle; but the
at-most-one-live-handle invariant fails: a start whose initial probe does
not succeed creates a fresh terminal and overwrites _terminal even while a
live terminal is still owned, leaving two distinct live terminals, the
older one leaked. -/
theorem c2_amended :
    (∀ settings env netw now (w : World),
      (settings.nodejsPath = "" ∨ env.nodejsPathValid = true) →
      checkBool (netw now settings.serverPort) = true →
      startServerLaunch settings env netw now w
        = ({ w with mgr := { w.mgr with serverPort := settings.serverPort,
                                        isRunning := true } },
           StartPhase1.resolvedAlreadyRunning))
    ∧ (∀ settings env netw now (w w1 : World) (c : String) (tid : Nat),
      w.mgr.terminal = some tid →
      tid < w.createdTerminals →
      w.disposedTerminals.contains tid = false →
      w.disposedTerminals.contains w.createdTerminals = false →
      startServerLaunch settings env netw now w = (w1, .launched c) →
      tid ∈ liveTerminals w1
        ∧ w.createdTerminals ∈ liveTerminals w1
        ∧ tid ≠ w.createdTerminals
        ∧ w1.mgr.terminal = some w.createdTerminals) := by
  constructor
  · intro settings env netw now w hpath hreach
    exact startServerLaunch_already settings env netw now w hpath hreach
  · intro settings env netw now w w1 c tid hterm htid hdisp hfresh hl
    obtain ⟨hc1, hd1, ht1, -⟩ :=
      startServerLaunch_launched settings env netw now w w1 c hl
    refine ⟨?_, ?_, by omega, ht1⟩
    · simp only [liveTerminals, hc1, hd1, List.mem_filter, List.mem_range,
        hdisp, Bool.not_false]
      exact ⟨by omega, trivial⟩
    · simp only [liveTerminals, hc1, hd1, List.mem_filter, List.mem_range,
        hfresh, Bool.not_false]
      exact ⟨by omega, trivial⟩

/-- Witness for C2 (amended): from wLaunch0 (terminal 0 live and owned), a
second launch at time 10 leaves terminals 0 and 1 both live, ownership
moved to 1. -/
theorem c2_amended_witness :
    0 ∈ liveTerminals c2w2
    ∧ 1 ∈ liveTerminals c2w2
    ∧ (0 : Nat) ≠ 1
    ∧ c2w2.mgr.terminal = some 1 :=
  c2_amended.2 { serverPort := 3000, nodejsPath := "" } env0 unreachNetw 10
    wLaunch0 c2w2 npxCmd3000 0 rfl (by decide) rfl rfl (by decide)

/-- A network that is unreachable before time 500 and answers 200 from
time 500 on: the launched dev server comes up between the stop request and
the next scheduled poll. -/
def c1Netw : Nat → Nat → HttpOutcome :=
  fun t _ => if t < 500 then .connError else .response 200

/-- wLaunch0 after stopServer runs at time 100: terminal 0 disposed,
_terminal cleared, _isRunning cleared. -/
def c1w2 : World :=
  { mgr := { terminal := none, isRunning := false, serverPort := 3000,
             serverStartTime := 0 },
    createdTerminals := 1, disposedTerminals := [0], sentCommands := [npxCmd3000] }

/-- c1w2 after the still-scheduled poll of the first start fires at time
500 and finds the port reachable: _isRunning is set back to true. -/
def c1wf : World :=
  { mgr := { terminal := none, isRunning := true, serverPort := 3000,
             serverStartTime := 0 },
    createdTerminals := 1, disposedTerminals := [0], sentCommands := [npxCmd3000] }

/-- C1 counterexample: start launches at time 0 (probe unreachable) and
schedules its poll for time 500; stopServer runs at time 100, disposing
the terminal and clearing _isRunning; nothing cancels the scheduled poll
(the code has no generation counter), so when it fires at time 500 and the
probe succeeds it sets _isRunning back to true and resolves the in-flight
start as a success — the final cached state is Running, not Idle, refuting
the claim for this interleaving. -/
theorem c1_counterexample :
    startServerLaunch { serverPort := 3000, nodejsPath := "" } env0 c1Netw 0
        initialWorld = (wLaunch0, .launched npxCmd3000)
    ∧ stopServer c1Netw 100 wLaunch0
      = .ok (c1w2, { hadTerminal := true, warnedStillRunning := false,
                     probedPort := 3000 })
    ∧ getServerStatus c1w2 = false
    ∧ checkServer c1Netw (fun _ => 0) c1w2 500
      = (c1wf, PollResult.resolvedRunning 500)
    ∧ getServerStatus c1wf = true := by
  refine ⟨by decide, rfl, rfl, ?_, rfl⟩
  rw [checkServer.eq_def]
  decide

/-- C1 (amended): when stop() is invoked while a start() is mid-poll, the
stop itself leaves no handle owned and the cached flag cleared, and if no
probe after the stop ever succeeds, the in-flight start settles as a
(timeout) failure with final state Idle; a probe success after the stop,
however, resolves the in-flight start as a success and sets the cached
running flag back to true (see the counterexample). -/
theorem c1_amended (netw : Nat → Nat → HttpOutcome) (dur : Nat → Nat)
    (tstop t tid : Nat) (w1 w2 : World) (out : StopOutcome)
    (hfail : ∀ s p, checkBool (netw s p) = false)
    (hdur : ∀ s, dur s ≤ probeTimeout)
    (hterm : w1.mgr.terminal = some tid)
    (hstop : stopServer netw tstop w1 = .ok (w2, out))
    (hub : t ≤ w2.mgr.serverStartTime + maxStartupTime + checkInterval) :
    ∃ tr wf, checkServer netw dur w2 t = (wf, PollResult.rejectedTimeout tr)
      ∧ wf.mgr.isRunning = false
      ∧ wf.mgr.terminal = none
      ∧ getServerStatus wf = false := by
  rw [stopServer_eq_some netw tstop w1 tid hterm] at hstop
  have hw2 : w2 = { w1 with
      mgr := { w1.mgr with terminal := none, isRunning := false },
      disposedTerminals := w1.disposedTerminals ++ [tid] } := by
    injection hstop with h
    injection h with h1 h2
    exact h1.symm
  obtain ⟨tr, heq, -⟩ := checkServer_all_fail netw dur w2 t hfail hdur hub
  refine ⟨tr, _, heq, rfl, ?_, rfl⟩
  rw [hw2]

/-- Witness for C1 (amended): stop at time 100 while the start from
wLaunch0 is mid-poll, with a port that never becomes reachable: the
remaining poll settles as a timeout failure and the final state is Idle. -/
theorem c1_amended_witness :
    ∃ tr wf, checkServer unreachNetw (fun _ => 0) c1w2 500
        = (wf, PollResult.rejectedTimeout tr)
      ∧ wf.mgr.isRunning = false
      ∧ wf.mgr.terminal = none
      ∧ getServerStatus wf = false :=
  c1_amended unreachNetw (fun _ => 0) 100 500 0 wLaunch0 c1w2
    { hadTerminal := true, warnedStillRunning := false, probedPort := 3000 }
    (fun _ _ => rfl) (fun _ => Nat.zero_le _) rfl rfl (by decide)

end Motia
